import Mathlib

/-!
# Crust firmware: the system power state machine (`common/system_power.c`)
# and the device lifecycle (`include/common/device.h`)

A shallow embedding of `system_power.c`.  The file-local variable
`static uint8_t system_state` becomes a field of an explicit machine state, and
the calls into the PMIC, compute-subsystem (CSS) and watchdog drivers, whose
bodies live in other translation units, are recorded in a trace.  Every function
of the C file becomes a function on that machine state.

The device lifecycle is embedded from the structures of `device.h`; the bodies
of `device_get`, `device_put` and `device_is_running`, which the header only
declares, follow the design document word for word.
-/

namespace Crust

/-- Modelled from the spec: the enumeration constants `SYSTEM_*` of
`system_power.h` and the constant `SCPI_CSS_ON` of `scpi_protocol.h`; neither
header is part of the sources at hand.  The spec gives the closed domain
`ACTIVE`, `INACTIVE`, `OFF`, `SUSPEND`, `RESUME`, `SHUTDOWN`, `RESET`; the numeric
values are left open, only that the seven are pairwise distinct enumerators
that fit the `uint8_t` variable holding them. -/
structure Constants where
  SYSTEM_ACTIVE : Nat
  SYSTEM_INACTIVE : Nat
  SYSTEM_OFF : Nat
  SYSTEM_SUSPEND : Nat
  SYSTEM_RESUME : Nat
  SYSTEM_SHUTDOWN : Nat
  SYSTEM_RESET : Nat
  SCPI_CSS_ON : Nat
  distinct : [SYSTEM_ACTIVE, SYSTEM_INACTIVE, SYSTEM_OFF, SYSTEM_SUSPEND,
    SYSTEM_RESUME, SYSTEM_SHUTDOWN, SYSTEM_RESET].Nodup
  fits_uint8 : ∀ v ∈ [SYSTEM_ACTIVE, SYSTEM_INACTIVE, SYSTEM_OFF, SYSTEM_SUSPEND,
    SYSTEM_RESUME, SYSTEM_SHUTDOWN, SYSTEM_RESET], v < 256

/-- Modelled from the spec: one concrete numbering of the constants (the
enumerators in the order of the spec's domain list, counted from 0, and the SCPI
power state "on" as 0), used wherever a concrete instance is evaluated. -/
def enumerated : Constants where
  SYSTEM_ACTIVE := 0
  SYSTEM_INACTIVE := 1
  SYSTEM_OFF := 2
  SYSTEM_SUSPEND := 3
  SYSTEM_RESUME := 4
  SYSTEM_SHUTDOWN := 5
  SYSTEM_RESET := 6
  SCPI_CSS_ON := 0
  distinct := by decide
  fits_uint8 := by decide

/-- The two device objects `system_power.c` passes to driver hooks: the global
`pmic` and the watchdog `r_twd.dev`. -/
inductive DeviceRef where
  | pmic
  | r_twd
  deriving DecidableEq, Repr

/-- A call from `system_power.c` into another driver, with its arguments. -/
inductive HookCall where
  | pmic_suspend (dev : DeviceRef)
  | pmic_resume (dev : DeviceRef)
  | pmic_shutdown (dev : DeviceRef)
  | pmic_reset (dev : DeviceRef)
  | css_set_css_state (state : Nat)
  | css_set_cluster_state (cluster : Nat) (state : Nat)
  | css_set_core_state (cluster : Nat) (core : Nat) (state : Nat)
  | watchdog_disable (dev : DeviceRef)
  | watchdog_enable (dev : DeviceRef) (timeout : Nat)
  deriving DecidableEq, Repr

/-- One entry of the hook trace: the call, and the value `system_state` held at
the moment the call was made. -/
structure HookEvent where
  call : HookCall
  state_at_call : Nat
  deriving DecidableEq, Repr

/-- The state `system_power.c` acts on: the `uint8_t` variable `system_state`
and the trace of driver hooks invoked so far (oldest first).  The variable is
only ever assigned and compared, never computed with, so it is kept as a
natural number; what is proved for every natural number holds for every
`uint8_t` value, the ones outside the enumeration included. -/
structure Machine where
  system_state : Nat
  trace : List HookEvent
  deriving DecidableEq, Repr

/-- What the driver hooks return: the value of a call may depend on the call and
on every hook invoked before it. -/
abbrev HookResults := List HookEvent → HookCall → Int

/-- Invoke a driver hook: its return value, and the machine with the call
appended to the trace.  The hooks cannot reach the file-local `system_state`,
and every hook is taken to return to its caller (a reset that succeeds ends the
program, and with it every statement about later calls). -/
def invoke (hw : HookResults) (c : HookCall) (m : Machine) : Int × Machine :=
  (hw m.trace c, { m with trace := m.trace ++ [⟨c, m.system_state⟩] })

/-- `system_can_wake` (system_power.c:15-20): the result and the machine after
the call. -/
def system_can_wake (K : Constants) (m : Machine) : Bool × Machine :=
  (m.system_state == K.SYSTEM_INACTIVE || m.system_state == K.SYSTEM_OFF, m)

/-- `system_is_running` (system_power.c:22-26). -/
def system_is_running (K : Constants) (m : Machine) : Bool × Machine :=
  (m.system_state == K.SYSTEM_ACTIVE, m)

/-- `system_state_machine` (system_power.c:28-88).  The `switch` has four cases
and no `default`; the case labels are tested in textual order.  The return value
of every hook is discarded, as the expression statements of the source do. -/
def system_state_machine (K : Constants) (hw : HookResults) (m : Machine) : Machine :=
  if m.system_state = K.SYSTEM_SUSPEND then
    let m := (invoke hw (.pmic_suspend .pmic) m).2
    { m with system_state := K.SYSTEM_INACTIVE }
  else if m.system_state = K.SYSTEM_RESUME then
    let m := (invoke hw (.pmic_resume .pmic) m).2
    let m := (invoke hw (.css_set_css_state K.SCPI_CSS_ON) m).2
    let m := (invoke hw (.css_set_cluster_state 0 K.SCPI_CSS_ON) m).2
    let m := (invoke hw (.css_set_core_state 0 0 K.SCPI_CSS_ON) m).2
    { m with system_state := K.SYSTEM_ACTIVE }
  else if m.system_state = K.SYSTEM_SHUTDOWN then
    let m := (invoke hw (.pmic_shutdown .pmic) m).2
    { m with system_state := K.SYSTEM_OFF }
  else if m.system_state = K.SYSTEM_RESET then
    let m := (invoke hw (.pmic_reset .pmic) m).2
    let m := (invoke hw (.watchdog_disable .r_twd) m).2
    let m := (invoke hw (.watchdog_enable .r_twd 0) m).2
    m
  else m

/-- `system_reset` (system_power.c:90-94). -/
def system_reset (K : Constants) (m : Machine) : Machine :=
  { m with system_state := K.SYSTEM_RESET }

/-- `system_shutdown` (system_power.c:96-101). -/
def system_shutdown (K : Constants) (m : Machine) : Machine :=
  if m.system_state = K.SYSTEM_ACTIVE then
    { m with system_state := K.SYSTEM_SHUTDOWN }
  else m

/-- `system_suspend` (system_power.c:103-108). -/
def system_suspend (K : Constants) (m : Machine) : Machine :=
  if m.system_state = K.SYSTEM_ACTIVE then
    { m with system_state := K.SYSTEM_SUSPEND }
  else m

/-- `system_wakeup` (system_power.c:110-117): two consecutive `if` statements,
the second one reading the state the first one may have written. -/
def system_wakeup (K : Constants) (m : Machine) : Machine :=
  let m := if m.system_state = K.SYSTEM_INACTIVE then
      { m with system_state := K.SYSTEM_RESUME }
    else m
  let m := if m.system_state = K.SYSTEM_OFF then
      { m with system_state := K.SYSTEM_RESET }
    else m
  m

/-- The main loop calling `system_state_machine` `n` times in a row. -/
def run_steps (K : Constants) (hw : HookResults) : Nat → Machine → Machine
  | 0, m => m
  | n + 1, m => run_steps K hw n (system_state_machine K hw m)

/-- The three hook events of one reset attempt, all made while the state is
`SYSTEM_RESET`: PMIC reset, watchdog disable, watchdog enable with timeout 0. -/
def reset_attempt (K : Constants) : List HookEvent :=
  [⟨.pmic_reset .pmic, K.SYSTEM_RESET⟩,
   ⟨.watchdog_disable .r_twd, K.SYSTEM_RESET⟩,
   ⟨.watchdog_enable .r_twd 0, K.SYSTEM_RESET⟩]

/-- A hook environment in which every hook returns 0. -/
def hooks_ok : HookResults := fun _ _ => 0

/-- A call the surrounding firmware can make into `system_power.c`: the step
function or one of the four requests. -/
inductive SystemOp where
  | state_machine
  | suspend
  | shutdown
  | wakeup
  | reset
  deriving DecidableEq, Repr

/-- Perform one call into `system_power.c`. -/
def apply_op (K : Constants) (hw : HookResults) : SystemOp → Machine → Machine
  | .state_machine, m => system_state_machine K hw m
  | .suspend, m => system_suspend K m
  | .shutdown, m => system_shutdown K m
  | .wakeup, m => system_wakeup K m
  | .reset, m => system_reset K m

/-- Perform a finite sequence of calls into `system_power.c`, first to last. -/
def run_ops (K : Constants) (hw : HookResults) : List SystemOp → Machine → Machine
  | [], m => m
  | op :: ops, m => run_ops K hw ops (apply_op K hw op m)

/-! ### The device lifecycle (`include/common/device.h`) -/

theorem Constants.all_ne (K : Constants) :
    K.SYSTEM_ACTIVE ≠ K.SYSTEM_INACTIVE ∧ K.SYSTEM_ACTIVE ≠ K.SYSTEM_OFF ∧
    K.SYSTEM_ACTIVE ≠ K.SYSTEM_SUSPEND ∧ K.SYSTEM_ACTIVE ≠ K.SYSTEM_RESUME ∧
    K.SYSTEM_ACTIVE ≠ K.SYSTEM_SHUTDOWN ∧ K.SYSTEM_ACTIVE ≠ K.SYSTEM_RESET ∧
    K.SYSTEM_INACTIVE ≠ K.SYSTEM_OFF ∧ K.SYSTEM_INACTIVE ≠ K.SYSTEM_SUSPEND ∧
    K.SYSTEM_INACTIVE ≠ K.SYSTEM_RESUME ∧ K.SYSTEM_INACTIVE ≠ K.SYSTEM_SHUTDOWN ∧
    K.SYSTEM_INACTIVE ≠ K.SYSTEM_RESET ∧
    K.SYSTEM_OFF ≠ K.SYSTEM_SUSPEND ∧ K.SYSTEM_OFF ≠ K.SYSTEM_RESUME ∧
    K.SYSTEM_OFF ≠ K.SYSTEM_SHUTDOWN ∧ K.SYSTEM_OFF ≠ K.SYSTEM_RESET ∧
    K.SYSTEM_SUSPEND ≠ K.SYSTEM_RESUME ∧ K.SYSTEM_SUSPEND ≠ K.SYSTEM_SHUTDOWN ∧
    K.SYSTEM_SUSPEND ≠ K.SYSTEM_RESET ∧
    K.SYSTEM_RESUME ≠ K.SYSTEM_SHUTDOWN ∧ K.SYSTEM_RESUME ≠ K.SYSTEM_RESET ∧
    K.SYSTEM_SHUTDOWN ≠ K.SYSTEM_RESET := by
  have h := K.distinct
  simp only [List.nodup_cons, List.mem_cons, List.mem_singleton, not_or,
    List.not_mem_nil, not_false_eq_true, List.nodup_nil, and_true] at h
  tauto

/-! ## What one step does, case by case -/

theorem step_SUSPEND (K : Constants) (hw : HookResults) (m : Machine)
    (h : m.system_state = K.SYSTEM_SUSPEND) :
    system_state_machine K hw m =
      ⟨K.SYSTEM_INACTIVE, m.trace ++ [⟨.pmic_suspend .pmic, K.SYSTEM_SUSPEND⟩]⟩ := by
  simp [system_state_machine, invoke, h]

theorem step_RESUME (K : Constants) (hw : HookResults) (m : Machine)
    (h : m.system_state = K.SYSTEM_RESUME) :
    system_state_machine K hw m =
      ⟨K.SYSTEM_ACTIVE, m.trace ++
        [⟨.pmic_resume .pmic, K.SYSTEM_RESUME⟩,
         ⟨.css_set_css_state K.SCPI_CSS_ON, K.SYSTEM_RESUME⟩,
         ⟨.css_set_cluster_state 0 K.SCPI_CSS_ON, K.SYSTEM_RESUME⟩,
         ⟨.css_set_core_state 0 0 K.SCPI_CSS_ON, K.SYSTEM_RESUME⟩]⟩ := by
  obtain ⟨-, -, -, -, -, -, -, -, -, -, -, -, -, -, -, h1, -⟩ := K.all_ne
  simp [system_state_machine, invoke, h, h1.symm]

theorem step_SHUTDOWN (K : Constants) (hw : HookResults) (m : Machine)
    (h : m.system_state = K.SYSTEM_SHUTDOWN) :
    system_state_machine K hw m =
      ⟨K.SYSTEM_OFF, m.trace ++ [⟨.pmic_shutdown .pmic, K.SYSTEM_SHUTDOWN⟩]⟩ := by
  obtain ⟨-, -, -, -, -, -, -, -, -, -, -, -, -, -, -, -, h1, -, h2, -⟩ := K.all_ne
  simp [system_state_machine, invoke, h, h1.symm, h2.symm]

theorem step_RESET (K : Constants) (hw : HookResults) (m : Machine)
    (h : m.system_state = K.SYSTEM_RESET) :
    system_state_machine K hw m = ⟨K.SYSTEM_RESET, m.trace ++ reset_attempt K⟩ := by
  obtain ⟨-, -, -, -, -, -, -, -, -, -, -, -, -, -, -, -, -, h1, -, h2, h3⟩ := K.all_ne
  simp [system_state_machine, invoke, reset_attempt, h, h1.symm, h2.symm, h3.symm]

theorem step_other (K : Constants) (hw : HookResults) (m : Machine)
    (h1 : m.system_state ≠ K.SYSTEM_SUSPEND) (h2 : m.system_state ≠ K.SYSTEM_RESUME)
    (h3 : m.system_state ≠ K.SYSTEM_SHUTDOWN) (h4 : m.system_state ≠ K.SYSTEM_RESET) :
    system_state_machine K hw m = m := by
  simp [system_state_machine, h1, h2, h3, h4]

theorem run_steps_succ (K : Constants) (hw : HookResults) (n : Nat) (m : Machine) :
    run_steps K hw (n + 1) m = run_steps K hw n (system_state_machine K hw m) := rfl

theorem run_steps_fixed (K : Constants) (hw : HookResults) (m : Machine)
    (h : system_state_machine K hw m = m) (n : Nat) : run_steps K hw n m = m := by
  induction n with
  | zero => rfl
  | succ n ih => rw [run_steps_succ, h, ih]

theorem run_steps_RESET (K : Constants) (hw : HookResults) (n : Nat) :
    ∀ m : Machine, m.system_state = K.SYSTEM_RESET →
      run_steps K hw n m =
        ⟨K.SYSTEM_RESET, m.trace ++ (List.replicate n (reset_attempt K)).flatten⟩ := by
  induction n with
  | zero =>
    intro m h
    cases m
    simp_all [run_steps]
  | succ n ih =>
    intro m h
    rw [run_steps_succ, step_RESET K hw m h, ih _ rfl]
    simp [List.replicate_succ, List.append_assoc]

/-! ## What the requests do, case by case -/

theorem suspend_ACTIVE (K : Constants) (m : Machine) (h : m.system_state = K.SYSTEM_ACTIVE) :
    system_suspend K m = ⟨K.SYSTEM_SUSPEND, m.trace⟩ := by
  simp [system_suspend, h]

theorem shutdown_ACTIVE (K : Constants) (m : Machine) (h : m.system_state = K.SYSTEM_ACTIVE) :
    system_shutdown K m = ⟨K.SYSTEM_SHUTDOWN, m.trace⟩ := by
  simp [system_shutdown, h]

theorem wakeup_INACTIVE (K : Constants) (m : Machine)
    (h : m.system_state = K.SYSTEM_INACTIVE) :
    system_wakeup K m = ⟨K.SYSTEM_RESUME, m.trace⟩ := by
  obtain ⟨-, -, -, -, -, -, -, -, -, -, -, -, h1, -⟩ := K.all_ne
  simp [system_wakeup, h, h1.symm]

theorem wakeup_OFF (K : Constants) (m : Machine) (h : m.system_state = K.SYSTEM_OFF) :
    system_wakeup K m = ⟨K.SYSTEM_RESET, m.trace⟩ := by
  obtain ⟨-, -, -, -, -, -, h1, -⟩ := K.all_ne
  simp [system_wakeup, h, h1.symm]

theorem step_stable (K : Constants) (hw : HookResults) (m : Machine)
    (h : m.system_state = K.SYSTEM_ACTIVE ∨ m.system_state = K.SYSTEM_INACTIVE ∨
      m.system_state = K.SYSTEM_OFF) :
    system_state_machine K hw m = m := by
  obtain ⟨-, -, a1, a2, a3, a4, -, i1, i2, i3, i4, o1, o2, o3, o4, -⟩ := K.all_ne
  rcases h with h | h | h <;> apply step_other <;> rw [h] <;> assumption

/-! ## What the device lifecycle calls do, case by case -/

theorem suspend_not_ACTIVE (K : Constants) (m : Machine)
    (h : m.system_state ≠ K.SYSTEM_ACTIVE) : system_suspend K m = m := by
  simp [system_suspend, h]

theorem shutdown_not_ACTIVE (K : Constants) (m : Machine)
    (h : m.system_state ≠ K.SYSTEM_ACTIVE) : system_shutdown K m = m := by
  simp [system_shutdown, h]

theorem wakeup_not_wakeable (K : Constants) (m : Machine)
    (h1 : m.system_state ≠ K.SYSTEM_INACTIVE) (h2 : m.system_state ≠ K.SYSTEM_OFF) :
    system_wakeup K m = m := by
  simp [system_wakeup, h1, h2]

theorem reset_RESET (K : Constants) (m : Machine) (h : m.system_state = K.SYSTEM_RESET) :
    system_reset K m = m := by
  cases m
  simp_all [system_reset]

theorem run_ops_cons (K : Constants) (hw : HookResults) (op : SystemOp)
    (ops : List SystemOp) (m : Machine) :
    run_ops K hw (op :: ops) m = run_ops K hw ops (apply_op K hw op m) := rfl

theorem request_in_RESET (K : Constants) (hw : HookResults) (op : SystemOp) (m : Machine)
    (h : m.system_state = K.SYSTEM_RESET) (hop : op ≠ .state_machine) :
    apply_op K hw op m = m := by
  obtain ⟨-, -, -, -, -, a, -, -, -, -, i, -, -, -, o, -⟩ := K.all_ne
  cases op with
  | state_machine => exact absurd rfl hop
  | suspend => exact suspend_not_ACTIVE K m (by rw [h]; exact a.symm)
  | shutdown => exact shutdown_not_ACTIVE K m (by rw [h]; exact a.symm)
  | wakeup => exact wakeup_not_wakeable K m (by rw [h]; exact i.symm) (by rw [h]; exact o.symm)
  | reset => exact reset_RESET K m h

theorem run_ops_RESET (K : Constants) (hw : HookResults) (ops : List SystemOp) :
    ∀ m : Machine, m.system_state = K.SYSTEM_RESET →
      run_ops K hw ops m =
        ⟨K.SYSTEM_RESET, m.trace ++
          (List.replicate (ops.count .state_machine) (reset_attempt K)).flatten⟩ := by
  induction ops with
  | nil =>
    intro m h
    cases m
    simp_all [run_ops]
  | cons op ops ih =>
    intro m h
    rw [run_ops_cons]
    by_cases hop : op = .state_machine
    · subst hop
      show run_ops K hw ops (system_state_machine K hw m) = _
      rw [step_RESET K hw m h, ih _ rfl]
      simp [List.replicate_succ, List.append_assoc]
    · rw [request_in_RESET K hw op m h hop, ih m h, List.count_cons_of_ne (Ne.symm hop)]

theorem apply_op_OFF_or_RESET (K : Constants) (hw : HookResults) (op : SystemOp)
    (m : Machine)
    (h : m.system_state = K.SYSTEM_OFF ∨ m.system_state = K.SYSTEM_RESET) :
    (apply_op K hw op m).system_state = K.SYSTEM_OFF ∨
    (apply_op K hw op m).system_state = K.SYSTEM_RESET := by
  obtain ⟨-, a2, -, -, -, a6, -⟩ := K.all_ne
  rcases h with h | h
  · cases op with
    | state_machine =>
      left
      show (system_state_machine K hw m).system_state = _
      rw [step_stable K hw m (Or.inr (Or.inr h))]; exact h
    | suspend =>
      left
      show (system_suspend K m).system_state = _
      rw [suspend_not_ACTIVE K m (by rw [h]; exact a2.symm)]; exact h
    | shutdown =>
      left
      show (system_shutdown K m).system_state = _
      rw [shutdown_not_ACTIVE K m (by rw [h]; exact a2.symm)]; exact h
    | wakeup =>
      right
      show (system_wakeup K m).system_state = _
      rw [wakeup_OFF K m h]
    | reset => right; rfl
  · right
    by_cases hop : op = .state_machine
    · subst hop
      show (system_state_machine K hw m).system_state = _
      rw [step_RESET K hw m h]
    · rw [request_in_RESET K hw op m h hop]; exact h

/-! ## Reset request -/

/-- C1: for every value of the state variable, `system_reset` leaves the state
equal to `SYSTEM_RESET` and invokes no hook (the trace is untouched). -/
theorem system_reset_forces_RESET (K : Constants) (m : Machine) :
    (system_reset K m).system_state = K.SYSTEM_RESET ∧
    (system_reset K m).trace = m.trace := by
  exact ⟨rfl, rfl⟩

/-- C2: when the state is `SYSTEM_RESET`, one step leaves it at `SYSTEM_RESET` and
appends to the trace exactly the PMIC reset, the watchdog disable and the
watchdog enable with timeout 0, in this order; after `n` steps the state is still
`SYSTEM_RESET` and the trace has grown by that sequence repeated `n` times. -/
theorem reset_step_repeats_attempts (K : Constants) (hw : HookResults) (m : Machine)
    (h : m.system_state = K.SYSTEM_RESET) :
    (system_state_machine K hw m).system_state = K.SYSTEM_RESET ∧
    (system_state_machine K hw m).trace = m.trace ++
      [⟨.pmic_reset .pmic, K.SYSTEM_RESET⟩,
       ⟨.watchdog_disable .r_twd, K.SYSTEM_RESET⟩,
       ⟨.watchdog_enable .r_twd 0, K.SYSTEM_RESET⟩] ∧
    ∀ n : Nat,
      (run_steps K hw n m).system_state = K.SYSTEM_RESET ∧
      (run_steps K hw n m).trace =
        m.trace ++ (List.replicate n
          [⟨.pmic_reset .pmic, K.SYSTEM_RESET⟩,
           ⟨.watchdog_disable .r_twd, K.SYSTEM_RESET⟩,
           ⟨.watchdog_enable .r_twd 0, K.SYSTEM_RESET⟩]).flatten := by
  refine ⟨?_, ?_, fun n => ?_⟩
  · rw [step_RESET K hw m h]
  · rw [step_RESET K hw m h]; rfl
  · rw [run_steps_RESET K hw n m h]; exact ⟨rfl, rfl⟩

/-- Witness for C2 at the machine in state `SYSTEM_RESET` with an empty trace. -/
theorem reset_step_repeats_attempts_witness :
    (⟨6, []⟩ : Machine).system_state = enumerated.SYSTEM_RESET ∧
    (system_state_machine enumerated hooks_ok ⟨6, []⟩).system_state = 6 ∧
    (system_state_machine enumerated hooks_ok ⟨6, []⟩).trace =
      [⟨.pmic_reset .pmic, 6⟩, ⟨.watchdog_disable .r_twd, 6⟩,
       ⟨.watchdog_enable .r_twd 0, 6⟩] ∧
    (run_steps enumerated hooks_ok 2 ⟨6, []⟩).system_state = 6 ∧
    (run_steps enumerated hooks_ok 2 ⟨6, []⟩).trace =
      [⟨.pmic_reset .pmic, 6⟩, ⟨.watchdog_disable .r_twd, 6⟩,
       ⟨.watchdog_enable .r_twd 0, 6⟩,
       ⟨.pmic_reset .pmic, 6⟩, ⟨.watchdog_disable .r_twd, 6⟩,
       ⟨.watchdog_enable .r_twd 0, 6⟩] := by
  have h := reset_step_repeats_attempts enumerated hooks_ok ⟨6, []⟩ (by decide)
  exact ⟨by decide, h.1, h.2.1, (h.2.2 2).1, (h.2.2 2).2⟩

/-! ## Suspend and resume -/

/-- C3: from `SYSTEM_ACTIVE`, `system_suspend` leaves the state at
`SYSTEM_SUSPEND` (which is not `SYSTEM_INACTIVE`) with `system_can_wake` false;
the first step reaches `SYSTEM_INACTIVE` and makes `system_can_wake` true; and
for every `k ≥ 1`, `k` steps end in `SYSTEM_INACTIVE`, in the very machine
state the first step produced. -/
theorem suspend_reaches_INACTIVE_in_one_step (K : Constants) (hw : HookResults)
    (m : Machine) (h : m.system_state = K.SYSTEM_ACTIVE) :
    (system_suspend K m).system_state = K.SYSTEM_SUSPEND ∧
    (system_suspend K m).system_state ≠ K.SYSTEM_INACTIVE ∧
    (system_can_wake K (system_suspend K m)).1 = false ∧
    (system_state_machine K hw (system_suspend K m)).system_state = K.SYSTEM_INACTIVE ∧
    (system_can_wake K (system_state_machine K hw (system_suspend K m))).1 = true ∧
    ∀ k : Nat, 1 ≤ k →
      (run_steps K hw k (system_suspend K m)).system_state = K.SYSTEM_INACTIVE ∧
      run_steps K hw k (system_suspend K m) =
        system_state_machine K hw (system_suspend K m) := by
  obtain ⟨-, -, -, -, -, -, h1, h2, -, -, -, h3, -⟩ := K.all_ne
  have hs := suspend_ACTIVE K m h
  have hstep := step_SUSPEND K hw (system_suspend K m) (by rw [hs])
  refine ⟨by rw [hs], by rw [hs]; exact h2.symm, ?_, by rw [hstep], ?_, ?_⟩
  · simp [system_can_wake, hs, h2.symm, h3.symm]
  · simp [system_can_wake, hstep]
  · intro k hk
    obtain ⟨j, rfl⟩ : ∃ j, k = j + 1 := ⟨k - 1, by omega⟩
    have hfix : run_steps K hw (j + 1) (system_suspend K m) =
        system_state_machine K hw (system_suspend K m) := by
      rw [run_steps_succ]
      apply run_steps_fixed
      apply step_stable
      rw [hstep]
      exact Or.inr (Or.inl rfl)
    exact ⟨by rw [hfix, hstep], hfix⟩

/-- Witness for C3 at the active machine with an empty trace and `k = 3`. -/
theorem suspend_reaches_INACTIVE_in_one_step_witness :
    (⟨0, []⟩ : Machine).system_state = enumerated.SYSTEM_ACTIVE ∧
    (system_suspend enumerated ⟨0, []⟩).system_state = 3 ∧
    (system_can_wake enumerated (system_suspend enumerated ⟨0, []⟩)).1 = false ∧
    (system_state_machine enumerated hooks_ok
      (system_suspend enumerated ⟨0, []⟩)).system_state = 1 ∧
    (system_can_wake enumerated (system_state_machine enumerated hooks_ok
      (system_suspend enumerated ⟨0, []⟩))).1 = true ∧
    (run_steps enumerated hooks_ok 3 (system_suspend enumerated ⟨0, []⟩)).system_state = 1 := by
  have h := suspend_reaches_INACTIVE_in_one_step enumerated hooks_ok ⟨0, []⟩ (by decide)
  exact ⟨by decide, h.1, h.2.2.1, h.2.2.2.1, h.2.2.2.2.1, (h.2.2.2.2.2 3 (by decide)).1⟩

/-- C4: from `SYSTEM_INACTIVE`, `system_wakeup` followed by one step ends in
`SYSTEM_ACTIVE`; that step appends to the trace the PMIC resume hook and then
`css_set_css_state(ON)`, `css_set_cluster_state(0, ON)`,
`css_set_core_state(0, 0, ON)`, once each and in this order, every one of them
made while the state was still `SYSTEM_RESUME`, which is not `SYSTEM_ACTIVE`. -/
theorem wakeup_step_powers_css_in_order (K : Constants) (hw : HookResults)
    (m : Machine) (h : m.system_state = K.SYSTEM_INACTIVE) :
    (system_wakeup K m).system_state = K.SYSTEM_RESUME ∧
    (system_wakeup K m).trace = m.trace ∧
    (system_state_machine K hw (system_wakeup K m)).system_state = K.SYSTEM_ACTIVE ∧
    (system_state_machine K hw (system_wakeup K m)).trace = m.trace ++
      [⟨.pmic_resume .pmic, K.SYSTEM_RESUME⟩,
       ⟨.css_set_css_state K.SCPI_CSS_ON, K.SYSTEM_RESUME⟩,
       ⟨.css_set_cluster_state 0 K.SCPI_CSS_ON, K.SYSTEM_RESUME⟩,
       ⟨.css_set_core_state 0 0 K.SCPI_CSS_ON, K.SYSTEM_RESUME⟩] ∧
    K.SYSTEM_RESUME ≠ K.SYSTEM_ACTIVE := by
  obtain ⟨-, -, -, h1, -⟩ := K.all_ne
  have hw1 := wakeup_INACTIVE K m h
  have hstep := step_RESUME K hw (system_wakeup K m) (by rw [hw1])
  refine ⟨by rw [hw1], by rw [hw1], by rw [hstep], ?_, h1.symm⟩
  rw [hstep, hw1]

/-- Witness for C4 at the inactive machine with an empty trace. -/
theorem wakeup_step_powers_css_in_order_witness :
    (⟨1, []⟩ : Machine).system_state = enumerated.SYSTEM_INACTIVE ∧
    (system_state_machine enumerated hooks_ok
      (system_wakeup enumerated ⟨1, []⟩)).system_state = 0 ∧
    (system_state_machine enumerated hooks_ok (system_wakeup enumerated ⟨1, []⟩)).trace =
      [⟨.pmic_resume .pmic, 4⟩, ⟨.css_set_css_state 0, 4⟩,
       ⟨.css_set_cluster_state 0 0, 4⟩, ⟨.css_set_core_state 0 0 0, 4⟩] := by
  have h := wakeup_step_powers_css_in_order enumerated hooks_ok ⟨1, []⟩ (by decide)
  exact ⟨by decide, h.2.2.1, h.2.2.2.1⟩

/-- C5: from `SYSTEM_OFF`, `system_wakeup` sets the state to `SYSTEM_RESET`, not
to `SYSTEM_RESUME`; the next step performs the reset attempt (PMIC reset,
watchdog disable, watchdog enable with timeout 0) and stays in `SYSTEM_RESET`,
and after any number of steps the state is `SYSTEM_RESET`, never
`SYSTEM_ACTIVE`, so `system_is_running` is false. -/
theorem wakeup_from_OFF_goes_to_RESET (K : Constants) (hw : HookResults)
    (m : Machine) (h : m.system_state = K.SYSTEM_OFF) :
    (system_wakeup K m).system_state = K.SYSTEM_RESET ∧
    (system_wakeup K m).system_state ≠ K.SYSTEM_RESUME ∧
    (system_wakeup K m).trace = m.trace ∧
    system_state_machine K hw (system_wakeup K m) =
      ⟨K.SYSTEM_RESET, m.trace ++
        [⟨.pmic_reset .pmic, K.SYSTEM_RESET⟩,
         ⟨.watchdog_disable .r_twd, K.SYSTEM_RESET⟩,
         ⟨.watchdog_enable .r_twd 0, K.SYSTEM_RESET⟩]⟩ ∧
    ∀ n : Nat,
      (run_steps K hw n (system_wakeup K m)).system_state = K.SYSTEM_RESET ∧
      (run_steps K hw n (system_wakeup K m)).system_state ≠ K.SYSTEM_ACTIVE ∧
      (system_is_running K (run_steps K hw n (system_wakeup K m))).1 = false := by
  obtain ⟨-, -, -, -, -, h1, -, -, -, -, -, -, -, -, -, -, -, -, -, h2, -⟩ := K.all_ne
  have hw1 := wakeup_OFF K m h
  have hst : (system_wakeup K m).system_state = K.SYSTEM_RESET := by rw [hw1]
  refine ⟨hst, by rw [hst]; exact h2.symm, by rw [hw1], ?_, fun n => ?_⟩
  · rw [step_RESET K hw _ hst, hw1]; rfl
  · have hn := run_steps_RESET K hw n _ hst
    refine ⟨by rw [hn], by rw [hn]; exact h1.symm, ?_⟩
    simp [system_is_running, hn, h1.symm]

/-- Witness for C5 at the powered-off machine with an empty trace. -/
theorem wakeup_from_OFF_goes_to_RESET_witness :
    (⟨2, []⟩ : Machine).system_state = enumerated.SYSTEM_OFF ∧
    (system_wakeup enumerated ⟨2, []⟩).system_state = 6 ∧
    system_state_machine enumerated hooks_ok (system_wakeup enumerated ⟨2, []⟩) =
      ⟨6, [⟨.pmic_reset .pmic, 6⟩, ⟨.watchdog_disable .r_twd, 6⟩,
        ⟨.watchdog_enable .r_twd 0, 6⟩]⟩ ∧
    (run_steps enumerated hooks_ok 4 (system_wakeup enumerated ⟨2, []⟩)).system_state ≠ 0 := by
  have h := wakeup_from_OFF_goes_to_RESET enumerated hooks_ok ⟨2, []⟩ (by decide)
  exact ⟨by decide, h.1, h.2.2.2.1, (h.2.2.2.2 4).2.1⟩

/-! ## Guards of the requests, and the queries -/

/-- C6: each of `SYSTEM_INACTIVE`, `SYSTEM_OFF`, `SYSTEM_SUSPEND`,
`SYSTEM_RESUME`, `SYSTEM_SHUTDOWN`, `SYSTEM_RESET` differs from `SYSTEM_ACTIVE`;
in every state other than `SYSTEM_ACTIVE`, `system_suspend` and
`system_shutdown` return the machine as it was (same state, same trace); from
`SYSTEM_ACTIVE` they set the state to `SYSTEM_SUSPEND` and `SYSTEM_SHUTDOWN`
respectively, again without touching the trace. -/
theorem suspend_shutdown_guarded_by_ACTIVE (K : Constants) (m : Machine) :
    (∀ s ∈ [K.SYSTEM_INACTIVE, K.SYSTEM_OFF, K.SYSTEM_SUSPEND, K.SYSTEM_RESUME,
        K.SYSTEM_SHUTDOWN, K.SYSTEM_RESET], s ≠ K.SYSTEM_ACTIVE) ∧
    (m.system_state ≠ K.SYSTEM_ACTIVE →
      system_suspend K m = m ∧ system_shutdown K m = m) ∧
    (m.system_state = K.SYSTEM_ACTIVE →
      system_suspend K m = ⟨K.SYSTEM_SUSPEND, m.trace⟩ ∧
      system_shutdown K m = ⟨K.SYSTEM_SHUTDOWN, m.trace⟩) := by
  obtain ⟨h1, h2, h3, h4, h5, h6, -⟩ := K.all_ne
  refine ⟨?_, fun h => ?_, fun h => ⟨suspend_ACTIVE K m h, shutdown_ACTIVE K m h⟩⟩
  · intro s hs
    simp only [List.mem_cons, List.mem_singleton, List.not_mem_nil, or_false] at hs
    rcases hs with rfl | rfl | rfl | rfl | rfl | rfl
    exacts [h1.symm, h2.symm, h3.symm, h4.symm, h5.symm, h6.symm]
  · simp [system_suspend, system_shutdown, h]

/-- Witness for C6: a machine in `SYSTEM_RESUME` with one hook already traced is
returned unchanged by both requests, and the active machine is moved to
`SYSTEM_SUSPEND` and `SYSTEM_SHUTDOWN`. -/
theorem suspend_shutdown_guarded_by_ACTIVE_witness :
    ((⟨4, [⟨.pmic_suspend .pmic, 3⟩]⟩ : Machine).system_state ≠ enumerated.SYSTEM_ACTIVE ∧
      system_suspend enumerated ⟨4, [⟨.pmic_suspend .pmic, 3⟩]⟩ =
        ⟨4, [⟨.pmic_suspend .pmic, 3⟩]⟩ ∧
      system_shutdown enumerated ⟨4, [⟨.pmic_suspend .pmic, 3⟩]⟩ =
        ⟨4, [⟨.pmic_suspend .pmic, 3⟩]⟩) ∧
    ((⟨0, []⟩ : Machine).system_state = enumerated.SYSTEM_ACTIVE ∧
      system_suspend enumerated ⟨0, []⟩ = ⟨3, []⟩ ∧
      system_shutdown enumerated ⟨0, []⟩ = ⟨5, []⟩) :=
  ⟨⟨by decide,
    (suspend_shutdown_guarded_by_ACTIVE enumerated
      ⟨4, [⟨.pmic_suspend .pmic, 3⟩]⟩).2.1 (by decide)⟩,
   ⟨by decide, (suspend_shutdown_guarded_by_ACTIVE enumerated ⟨0, []⟩).2.2 (by decide)⟩⟩

/-- C7: for every value of the state variable, `system_can_wake` returns true
exactly when the state is `SYSTEM_INACTIVE` or `SYSTEM_OFF`, `system_is_running`
returns true exactly when it is `SYSTEM_ACTIVE`, and both leave the machine
(state and hook trace) as it was. -/
theorem queries_read_the_state (K : Constants) (m : Machine) :
    ((system_can_wake K m).1 = true ↔
      (m.system_state = K.SYSTEM_INACTIVE ∨ m.system_state = K.SYSTEM_OFF)) ∧
    ((system_is_running K m).1 = true ↔ m.system_state = K.SYSTEM_ACTIVE) ∧
    (system_can_wake K m).2 = m ∧
    (system_is_running K m).2 = m := by
  simp [system_can_wake, system_is_running]

/-! ## Shutdown -/

/-- C8: from `SYSTEM_ACTIVE`, `system_shutdown` sets the state to
`SYSTEM_SHUTDOWN` without calling a hook; one step then calls the PMIC shutdown
hook and sets the state to `SYSTEM_OFF`, after which `system_can_wake` is true
and `system_is_running` is false. -/
theorem shutdown_then_step_reaches_OFF (K : Constants) (hw : HookResults)
    (m : Machine) (h : m.system_state = K.SYSTEM_ACTIVE) :
    system_shutdown K m = ⟨K.SYSTEM_SHUTDOWN, m.trace⟩ ∧
    system_state_machine K hw (system_shutdown K m) =
      ⟨K.SYSTEM_OFF, m.trace ++ [⟨.pmic_shutdown .pmic, K.SYSTEM_SHUTDOWN⟩]⟩ ∧
    (system_can_wake K (system_state_machine K hw (system_shutdown K m))).1 = true ∧
    (system_is_running K (system_state_machine K hw (system_shutdown K m))).1 = false := by
  obtain ⟨-, h1, -⟩ := K.all_ne
  have hs := shutdown_ACTIVE K m h
  have hstep := step_SHUTDOWN K hw (system_shutdown K m) (by rw [hs])
  refine ⟨hs, by rw [hstep, hs], ?_, ?_⟩
  · simp [system_can_wake, hstep]
  · simp [system_is_running, hstep, h1.symm]

/-- Witness for C8 at the active machine with an empty trace. -/
theorem shutdown_then_step_reaches_OFF_witness :
    (⟨0, []⟩ : Machine).system_state = enumerated.SYSTEM_ACTIVE ∧
    system_shutdown enumerated ⟨0, []⟩ = ⟨5, []⟩ ∧
    system_state_machine enumerated hooks_ok (system_shutdown enumerated ⟨0, []⟩) =
      ⟨2, [⟨.pmic_shutdown .pmic, 5⟩]⟩ ∧
    (system_can_wake enumerated (system_state_machine enumerated hooks_ok
      (system_shutdown enumerated ⟨0, []⟩))).1 = true ∧
    (system_is_running enumerated (system_state_machine enumerated hooks_ok
      (system_shutdown enumerated ⟨0, []⟩))).1 = false :=
  ⟨by decide, shutdown_then_step_reaches_OFF enumerated hooks_ok ⟨0, []⟩ (by decide)⟩

/-! ## Stable states -/

/-- C9: in `SYSTEM_ACTIVE`, `SYSTEM_INACTIVE` or `SYSTEM_OFF` a step returns the
machine as it was, state and hook trace alike, and so does any number of
steps. -/
theorem step_is_noop_when_stable (K : Constants) (hw : HookResults) (m : Machine)
    (h : m.system_state = K.SYSTEM_ACTIVE ∨ m.system_state = K.SYSTEM_INACTIVE ∨
      m.system_state = K.SYSTEM_OFF) :
    system_state_machine K hw m = m ∧ ∀ n : Nat, run_steps K hw n m = m :=
  ⟨step_stable K hw m h, run_steps_fixed K hw m (step_stable K hw m h)⟩

/-- Witness for C9 at the powered-off machine holding one traced hook, with
five steps. -/
theorem step_is_noop_when_stable_witness :
    ((⟨2, [⟨.pmic_shutdown .pmic, 5⟩]⟩ : Machine).system_state = enumerated.SYSTEM_ACTIVE ∨
      (⟨2, [⟨.pmic_shutdown .pmic, 5⟩]⟩ : Machine).system_state =
        enumerated.SYSTEM_INACTIVE ∨
      (⟨2, [⟨.pmic_shutdown .pmic, 5⟩]⟩ : Machine).system_state = enumerated.SYSTEM_OFF) ∧
    system_state_machine enumerated hooks_ok ⟨2, [⟨.pmic_shutdown .pmic, 5⟩]⟩ =
      ⟨2, [⟨.pmic_shutdown .pmic, 5⟩]⟩ ∧
    run_steps enumerated hooks_ok 5 ⟨2, [⟨.pmic_shutdown .pmic, 5⟩]⟩ =
      ⟨2, [⟨.pmic_shutdown .pmic, 5⟩]⟩ :=
  have h := step_is_noop_when_stable enumerated hooks_ok ⟨2, [⟨.pmic_shutdown .pmic, 5⟩]⟩
    (by decide)
  ⟨by decide, h.1, h.2 5⟩

/-! ## The suspend sequence -/

/-- C10: the step taken in `SYSTEM_SUSPEND`, evaluated on the machine that
`system_suspend` produces from the active machine with an empty trace: whatever
the hooks return, the step calls one hook only, the PMIC suspend hook, and sets
the state to `SYSTEM_INACTIVE`.  The source announces three more actions in
comments (wakeup sources, power domains, clocks) and has no statement for any of
them, so the trace holds one event instead of four. -/
theorem suspend_step_calls_pmic_suspend_only (hw : HookResults) :
    system_suspend enumerated ⟨enumerated.SYSTEM_ACTIVE, []⟩ =
      ⟨enumerated.SYSTEM_SUSPEND, []⟩ ∧
    system_state_machine enumerated hw ⟨enumerated.SYSTEM_SUSPEND, []⟩ =
      ⟨enumerated.SYSTEM_INACTIVE, [⟨.pmic_suspend .pmic, enumerated.SYSTEM_SUSPEND⟩]⟩ ∧
    (system_state_machine enumerated hw ⟨enumerated.SYSTEM_SUSPEND, []⟩).trace.length = 1 := by
  refine ⟨by decide, ?_, ?_⟩ <;> simp [system_state_machine, invoke]

/-! ## Device lifecycle -/

/-- C13: once the state is `SYSTEM_RESET`, every finite sequence of steps and
requests (suspend, shutdown, wakeup, reset), in any order, leaves the state at
`SYSTEM_RESET`, and the trace grows by one reset attempt (PMIC reset, watchdog
disable, watchdog enable with timeout 0) for every call of the step function in
the sequence and by nothing else. -/
theorem RESET_is_absorbing (K : Constants) (hw : HookResults) (m : Machine)
    (h : m.system_state = K.SYSTEM_RESET) (ops : List SystemOp) :
    (run_ops K hw ops m).system_state = K.SYSTEM_RESET ∧
    (run_ops K hw ops m).trace = m.trace ++
      (List.replicate (ops.count .state_machine)
        [⟨.pmic_reset .pmic, K.SYSTEM_RESET⟩,
         ⟨.watchdog_disable .r_twd, K.SYSTEM_RESET⟩,
         ⟨.watchdog_enable .r_twd 0, K.SYSTEM_RESET⟩]).flatten := by
  rw [run_ops_RESET K hw ops m h]
  exact ⟨rfl, rfl⟩

/-- Witness for C13: from `SYSTEM_RESET`, the sequence wakeup, step, suspend,
shutdown, step, reset ends in `SYSTEM_RESET` with two reset attempts traced. -/
theorem RESET_is_absorbing_witness :
    (⟨6, []⟩ : Machine).system_state = enumerated.SYSTEM_RESET ∧
    (run_ops enumerated hooks_ok
      [.wakeup, .state_machine, .suspend, .shutdown, .state_machine, .reset]
      ⟨6, []⟩).system_state = 6 ∧
    (run_ops enumerated hooks_ok
      [.wakeup, .state_machine, .suspend, .shutdown, .state_machine, .reset]
      ⟨6, []⟩).trace =
      [⟨.pmic_reset .pmic, 6⟩, ⟨.watchdog_disable .r_twd, 6⟩,
       ⟨.watchdog_enable .r_twd 0, 6⟩,
       ⟨.pmic_reset .pmic, 6⟩, ⟨.watchdog_disable .r_twd, 6⟩,
       ⟨.watchdog_enable .r_twd 0, 6⟩] :=
  ⟨by decide, RESET_is_absorbing enumerated hooks_ok ⟨6, []⟩ (by decide)
    [.wakeup, .state_machine, .suspend, .shutdown, .state_machine, .reset]⟩

/-- C14: when the state is `SYSTEM_SUSPEND`, `SYSTEM_RESUME` or
`SYSTEM_SHUTDOWN`, each of `system_suspend`, `system_shutdown` and
`system_wakeup` returns the machine as it was, and so does every finite
sequence of these three requests; the next step then completes the transition,
to `SYSTEM_INACTIVE`, `SYSTEM_ACTIVE` or `SYSTEM_OFF` respectively. -/
theorem pending_transition_not_cancelled (K : Constants) (hw : HookResults) (m : Machine)
    (h : m.system_state = K.SYSTEM_SUSPEND ∨ m.system_state = K.SYSTEM_RESUME ∨
      m.system_state = K.SYSTEM_SHUTDOWN) :
    system_suspend K m = m ∧ system_shutdown K m = m ∧ system_wakeup K m = m ∧
    (∀ reqs : List SystemOp,
      (∀ op ∈ reqs, op = .suspend ∨ op = .shutdown ∨ op = .wakeup) →
      run_ops K hw reqs m = m ∧
      (m.system_state = K.SYSTEM_SUSPEND →
        (system_state_machine K hw (run_ops K hw reqs m)).system_state =
          K.SYSTEM_INACTIVE) ∧
      (m.system_state = K.SYSTEM_RESUME →
        (system_state_machine K hw (run_ops K hw reqs m)).system_state =
          K.SYSTEM_ACTIVE) ∧
      (m.system_state = K.SYSTEM_SHUTDOWN →
        (system_state_machine K hw (run_ops K hw reqs m)).system_state =
          K.SYSTEM_OFF)) := by
  obtain ⟨-, -, a1, a2, a3, -, -, i1, i2, i3, -, o1, o2, o3, -⟩ := K.all_ne
  have hA : m.system_state ≠ K.SYSTEM_ACTIVE := by
    rcases h with h | h | h <;> rw [h] <;> exact Ne.symm ‹_›
  have hI : m.system_state ≠ K.SYSTEM_INACTIVE := by
    rcases h with h | h | h <;> rw [h] <;> exact Ne.symm ‹_›
  have hO : m.system_state ≠ K.SYSTEM_OFF := by
    rcases h with h | h | h <;> rw [h] <;> exact Ne.symm ‹_›
  have hs := suspend_not_ACTIVE K m hA
  have hd := shutdown_not_ACTIVE K m hA
  have hwk := wakeup_not_wakeable K m hI hO
  refine ⟨hs, hd, hwk, fun reqs hreqs => ?_⟩
  have hrun : run_ops K hw reqs m = m := by
    induction reqs with
    | nil => rfl
    | cons op reqs ih =>
      have hop : apply_op K hw op m = m := by
        rcases hreqs op (List.mem_cons_self _ _) with e | e | e <;> subst e
        exacts [hs, hd, hwk]
      rw [run_ops_cons, hop]
      exact ih (fun o ho => hreqs o (List.mem_cons_of_mem _ ho))
  rw [hrun]
  exact ⟨rfl, fun e => by rw [step_SUSPEND K hw m e],
    fun e => by rw [step_RESUME K hw m e], fun e => by rw [step_SHUTDOWN K hw m e]⟩

/-- Witness for C14: a pending suspend survives wakeup, shutdown, suspend and
completes to `SYSTEM_INACTIVE` at the next step. -/
theorem pending_transition_not_cancelled_witness :
    ((⟨3, []⟩ : Machine).system_state = enumerated.SYSTEM_SUSPEND ∨
      (⟨3, []⟩ : Machine).system_state = enumerated.SYSTEM_RESUME ∨
      (⟨3, []⟩ : Machine).system_state = enumerated.SYSTEM_SHUTDOWN) ∧
    system_suspend enumerated ⟨3, []⟩ = ⟨3, []⟩ ∧
    system_shutdown enumerated ⟨3, []⟩ = ⟨3, []⟩ ∧
    system_wakeup enumerated ⟨3, []⟩ = ⟨3, []⟩ ∧
    (system_state_machine enumerated hooks_ok
      (run_ops enumerated hooks_ok [.wakeup, .shutdown, .suspend] ⟨3, []⟩)).system_state
      = 1 := by
  have h := pending_transition_not_cancelled enumerated hooks_ok ⟨3, []⟩ (by decide)
  exact ⟨by decide, h.1, h.2.1, h.2.2.1,
    (h.2.2.2 [.wakeup, .shutdown, .suspend] (by decide)).2.1 (by decide)⟩

/-- C15: the machine `system_state_machine` leaves, state and sequence of hooks
invoked alike, is the same whatever the hooks return, for every starting state
and any two hook environments; the same holds for any number of steps. -/
theorem step_ignores_hook_results (K : Constants) (hw1 hw2 : HookResults) (m : Machine) :
    system_state_machine K hw1 m = system_state_machine K hw2 m ∧
    ∀ n : Nat, run_steps K hw1 n m = run_steps K hw2 n m := by
  have hstep : ∀ x : Machine, system_state_machine K hw1 x = system_state_machine K hw2 x := by
    intro x
    simp only [system_state_machine, invoke]
  refine ⟨hstep m, fun n => ?_⟩
  induction n generalizing m with
  | zero => rfl
  | succ n ih => rw [run_steps_succ, run_steps_succ, hstep m, ih]

/-! ## Wakeup, the queries, and reachability -/

/-- C16: `system_wakeup` changes the state exactly when `system_can_wake` was
true just before the call.  From `SYSTEM_INACTIVE` the result is
`SYSTEM_RESUME` (the second test does not carry it on to `SYSTEM_RESET`), from
`SYSTEM_OFF` it is `SYSTEM_RESET`, and from `SYSTEM_ACTIVE`, `SYSTEM_SUSPEND`,
`SYSTEM_RESUME`, `SYSTEM_SHUTDOWN` and `SYSTEM_RESET` the machine is returned as
it was.  No hook is called in any case. -/
theorem wakeup_acts_iff_can_wake (K : Constants) (m : Machine) :
    ((system_wakeup K m).system_state ≠ m.system_state ↔
      (system_can_wake K m).1 = true) ∧
    (m.system_state = K.SYSTEM_INACTIVE →
      system_wakeup K m = ⟨K.SYSTEM_RESUME, m.trace⟩ ∧ K.SYSTEM_RESUME ≠ K.SYSTEM_RESET) ∧
    (m.system_state = K.SYSTEM_OFF → system_wakeup K m = ⟨K.SYSTEM_RESET, m.trace⟩) ∧
    (m.system_state ∈ [K.SYSTEM_ACTIVE, K.SYSTEM_SUSPEND, K.SYSTEM_RESUME,
        K.SYSTEM_SHUTDOWN, K.SYSTEM_RESET] → system_wakeup K m = m) ∧
    (system_wakeup K m).trace = m.trace := by
  obtain ⟨a1, a2, -, -, -, -, -, i1, i2, i3, i4, o1, o2, o3, o4, -, -, -, -, r, -⟩ :=
    K.all_ne
  refine ⟨?_, fun h => ⟨wakeup_INACTIVE K m h, r⟩, fun h => wakeup_OFF K m h,
    fun h => ?_, ?_⟩
  · by_cases hI : m.system_state = K.SYSTEM_INACTIVE
    · rw [wakeup_INACTIVE K m hI]
      simp [system_can_wake, hI, i2.symm]
    · by_cases hO : m.system_state = K.SYSTEM_OFF
      · rw [wakeup_OFF K m hO]
        simp [system_can_wake, hO, o4.symm]
      · rw [wakeup_not_wakeable K m hI hO]
        simp [system_can_wake, hI, hO]
  · simp only [List.mem_cons, List.mem_singleton, List.not_mem_nil, or_false] at h
    apply wakeup_not_wakeable <;> rcases h with h | h | h | h | h <;> rw [h] <;>
      first
        | exact a1 | exact a2 | exact i1.symm | exact i2.symm | exact i3.symm
        | exact i4.symm | exact o1.symm | exact o2.symm | exact o3.symm | exact o4.symm
  · by_cases hI : m.system_state = K.SYSTEM_INACTIVE
    · rw [wakeup_INACTIVE K m hI]
    · by_cases hO : m.system_state = K.SYSTEM_OFF
      · rw [wakeup_OFF K m hO]
      · rw [wakeup_not_wakeable K m hI hO]

/-- Witness for C16 at the inactive, the powered-off and the suspending
machine. -/
theorem wakeup_acts_iff_can_wake_witness :
    ((⟨1, []⟩ : Machine).system_state = enumerated.SYSTEM_INACTIVE ∧
      system_wakeup enumerated ⟨1, []⟩ = ⟨4, []⟩) ∧
    ((⟨2, []⟩ : Machine).system_state = enumerated.SYSTEM_OFF ∧
      system_wakeup enumerated ⟨2, []⟩ = ⟨6, []⟩) ∧
    ((⟨3, []⟩ : Machine).system_state ∈ [enumerated.SYSTEM_ACTIVE,
        enumerated.SYSTEM_SUSPEND, enumerated.SYSTEM_RESUME, enumerated.SYSTEM_SHUTDOWN,
        enumerated.SYSTEM_RESET] ∧
      system_wakeup enumerated ⟨3, []⟩ = ⟨3, []⟩) :=
  ⟨⟨by decide, ((wakeup_acts_iff_can_wake enumerated ⟨1, []⟩).2.1 (by decide)).1⟩,
   ⟨by decide, (wakeup_acts_iff_can_wake enumerated ⟨2, []⟩).2.2.1 (by decide)⟩,
   ⟨by decide, (wakeup_acts_iff_can_wake enumerated ⟨3, []⟩).2.2.2.1 (by decide)⟩⟩

/-- C17: for every state of the closed domain, `system_can_wake` and
`system_is_running` are not both true, and both are false exactly when the state
is `SYSTEM_SUSPEND`, `SYSTEM_RESUME`, `SYSTEM_SHUTDOWN` or `SYSTEM_RESET`. -/
theorem queries_exclusive_on_domain (K : Constants) (m : Machine)
    (h : m.system_state ∈ [K.SYSTEM_ACTIVE, K.SYSTEM_INACTIVE, K.SYSTEM_OFF,
      K.SYSTEM_SUSPEND, K.SYSTEM_RESUME, K.SYSTEM_SHUTDOWN, K.SYSTEM_RESET]) :
    ¬ ((system_can_wake K m).1 = true ∧ (system_is_running K m).1 = true) ∧
    (((system_can_wake K m).1 = false ∧ (system_is_running K m).1 = false) ↔
      m.system_state ∈ [K.SYSTEM_SUSPEND, K.SYSTEM_RESUME, K.SYSTEM_SHUTDOWN,
        K.SYSTEM_RESET]) := by
  obtain ⟨a1, a2, a3, a4, a5, a6, i1, i2, i3, i4, i5, o1, o2, o3, o4, s1, s2, s3,
    r1, r2, d1⟩ := K.all_ne
  simp only [List.mem_cons, List.mem_singleton, List.not_mem_nil, or_false] at h
  rcases h with h | h | h | h | h | h | h <;>
    simp [system_can_wake, system_is_running, h, a1, a2, a3, a4, a5, a6, i1, i2, i3, i4,
      i5, o1, o2, o3, o4, s1, s2, s3, r1, r2, d1, a1.symm, a2.symm, a3.symm, a4.symm,
      a5.symm, a6.symm, i1.symm, i2.symm, i3.symm, i4.symm, i5.symm, o1.symm, o2.symm,
      o3.symm, o4.symm, s1.symm, s2.symm, s3.symm, r1.symm, r2.symm, d1.symm]

/-- Witness for C17 at the machine with a resume pending. -/
theorem queries_exclusive_on_domain_witness :
    (⟨4, []⟩ : Machine).system_state ∈ [enumerated.SYSTEM_ACTIVE,
      enumerated.SYSTEM_INACTIVE, enumerated.SYSTEM_OFF, enumerated.SYSTEM_SUSPEND,
      enumerated.SYSTEM_RESUME, enumerated.SYSTEM_SHUTDOWN, enumerated.SYSTEM_RESET] ∧
    ¬ ((system_can_wake enumerated ⟨4, []⟩).1 = true ∧
      (system_is_running enumerated ⟨4, []⟩).1 = true) ∧
    (((system_can_wake enumerated ⟨4, []⟩).1 = false ∧
      (system_is_running enumerated ⟨4, []⟩).1 = false) ↔
      (⟨4, []⟩ : Machine).system_state ∈ [enumerated.SYSTEM_SUSPEND,
        enumerated.SYSTEM_RESUME, enumerated.SYSTEM_SHUTDOWN, enumerated.SYSTEM_RESET]) :=
  ⟨by decide, queries_exclusive_on_domain enumerated ⟨4, []⟩ (by decide)⟩

/-- C18: from `SYSTEM_OFF`, every finite sequence of steps and requests
(suspend, shutdown, wakeup, reset) ends in `SYSTEM_OFF` or `SYSTEM_RESET`, never
in `SYSTEM_ACTIVE`, so `system_is_running` is false after it. -/
theorem ACTIVE_unreachable_from_OFF (K : Constants) (hw : HookResults) (m : Machine)
    (h : m.system_state = K.SYSTEM_OFF) (ops : List SystemOp) :
    ((run_ops K hw ops m).system_state = K.SYSTEM_OFF ∨
      (run_ops K hw ops m).system_state = K.SYSTEM_RESET) ∧
    (run_ops K hw ops m).system_state ≠ K.SYSTEM_ACTIVE ∧
    (system_is_running K (run_ops K hw ops m)).1 = false := by
  obtain ⟨-, a2, -, -, -, a6, -⟩ := K.all_ne
  have key : ∀ (l : List SystemOp) (x : Machine),
      (x.system_state = K.SYSTEM_OFF ∨ x.system_state = K.SYSTEM_RESET) →
      ((run_ops K hw l x).system_state = K.SYSTEM_OFF ∨
        (run_ops K hw l x).system_state = K.SYSTEM_RESET) := by
    intro l
    induction l with
    | nil => intro x hx; exact hx
    | cons op l ih =>
      intro x hx
      rw [run_ops_cons]
      exact ih _ (apply_op_OFF_or_RESET K hw op x hx)
  have hfin := key ops m (Or.inl h)
  have hne : (run_ops K hw ops m).system_state ≠ K.SYSTEM_ACTIVE := by
    rcases hfin with e | e <;> rw [e]
    exacts [a2.symm, a6.symm]
  exact ⟨hfin, hne, by simp [system_is_running, hne]⟩

/-- Witness for C18: from `SYSTEM_OFF`, the sequence suspend, step, wakeup, step,
wakeup, shutdown, step does not make the system run. -/
theorem ACTIVE_unreachable_from_OFF_witness :
    (⟨2, []⟩ : Machine).system_state = enumerated.SYSTEM_OFF ∧
    (run_ops enumerated hooks_ok
      [.suspend, .state_machine, .wakeup, .state_machine, .wakeup, .shutdown,
       .state_machine] ⟨2, []⟩).system_state ≠ enumerated.SYSTEM_ACTIVE ∧
    (system_is_running enumerated (run_ops enumerated hooks_ok
      [.suspend, .state_machine, .wakeup, .state_machine, .wakeup, .shutdown,
       .state_machine] ⟨2, []⟩)).1 = false :=
  ⟨by decide, (ACTIVE_unreachable_from_OFF enumerated hooks_ok ⟨2, []⟩ (by decide)
    [.suspend, .state_machine, .wakeup, .state_machine, .wakeup, .shutdown,
     .state_machine]).2⟩

/-- C19: for every state of the closed domain, the state after one step is
`SYSTEM_ACTIVE`, `SYSTEM_INACTIVE`, `SYSTEM_OFF` or `SYSTEM_RESET`, hence none of
`SYSTEM_SUSPEND`, `SYSTEM_RESUME`, `SYSTEM_SHUTDOWN`, and a second step leaves
that state unchanged. -/
theorem step_settles_in_one_call (K : Constants) (hw : HookResults) (m : Machine)
    (h : m.system_state ∈ [K.SYSTEM_ACTIVE, K.SYSTEM_INACTIVE, K.SYSTEM_OFF,
      K.SYSTEM_SUSPEND, K.SYSTEM_RESUME, K.SYSTEM_SHUTDOWN, K.SYSTEM_RESET]) :
    (system_state_machine K hw m).system_state ∈
      [K.SYSTEM_ACTIVE, K.SYSTEM_INACTIVE, K.SYSTEM_OFF, K.SYSTEM_RESET] ∧
    (system_state_machine K hw m).system_state ∉
      [K.SYSTEM_SUSPEND, K.SYSTEM_RESUME, K.SYSTEM_SHUTDOWN] ∧
    (system_state_machine K hw (system_state_machine K hw m)).system_state =
      (system_state_machine K hw m).system_state := by
  obtain ⟨a1, a2, a3, a4, a5, a6, i1, i2, i3, i4, i5, o1, o2, o3, o4, s1, s2, s3,
    r1, r2, d1⟩ := K.all_ne
  have settle : ∀ x : Machine,
      (x.system_state = K.SYSTEM_ACTIVE ∨ x.system_state = K.SYSTEM_INACTIVE ∨
        x.system_state = K.SYSTEM_OFF ∨ x.system_state = K.SYSTEM_RESET) →
      x.system_state ∈ [K.SYSTEM_ACTIVE, K.SYSTEM_INACTIVE, K.SYSTEM_OFF, K.SYSTEM_RESET] ∧
      x.system_state ∉ [K.SYSTEM_SUSPEND, K.SYSTEM_RESUME, K.SYSTEM_SHUTDOWN] ∧
      (system_state_machine K hw x).system_state = x.system_state := by
    intro x hx
    rcases hx with e | e | e | e
    · rw [step_stable K hw x (Or.inl e), e]; simp [a3, a4, a5]
    · rw [step_stable K hw x (Or.inr (Or.inl e)), e]; simp [i2, i3, i4]
    · rw [step_stable K hw x (Or.inr (Or.inr e)), e]; simp [o1, o2, o3]
    · rw [step_RESET K hw x e, e]; simp [s3.symm, r2.symm, d1.symm]
  simp only [List.mem_cons, List.mem_singleton, List.not_mem_nil, or_false] at h
  rcases h with h | h | h | h | h | h | h
  · rw [step_stable K hw m (Or.inl h)]
    exact settle m (Or.inl h)
  · rw [step_stable K hw m (Or.inr (Or.inl h))]
    exact settle m (Or.inr (Or.inl h))
  · rw [step_stable K hw m (Or.inr (Or.inr h))]
    exact settle m (Or.inr (Or.inr (Or.inl h)))
  · rw [step_SUSPEND K hw m h]
    exact settle _ (Or.inr (Or.inl rfl))
  · rw [step_RESUME K hw m h]
    exact settle _ (Or.inl rfl)
  · rw [step_SHUTDOWN K hw m h]
    exact settle _ (Or.inr (Or.inr (Or.inl rfl)))
  · rw [step_RESET K hw m h]
    exact settle _ (Or.inr (Or.inr (Or.inr rfl)))

/-- Witness for C19 at the machine with a shutdown pending. -/
theorem step_settles_in_one_call_witness :
    (⟨5, []⟩ : Machine).system_state ∈ [enumerated.SYSTEM_ACTIVE,
      enumerated.SYSTEM_INACTIVE, enumerated.SYSTEM_OFF, enumerated.SYSTEM_SUSPEND,
      enumerated.SYSTEM_RESUME, enumerated.SYSTEM_SHUTDOWN, enumerated.SYSTEM_RESET] ∧
    (system_state_machine enumerated hooks_ok ⟨5, []⟩).system_state = 2 ∧
    (system_state_machine enumerated hooks_ok
      (system_state_machine enumerated hooks_ok ⟨5, []⟩)).system_state =
      (system_state_machine enumerated hooks_ok ⟨5, []⟩).system_state :=
  ⟨by decide, by decide,
    (step_settles_in_one_call enumerated hooks_ok ⟨5, []⟩ (by decide)).2.2⟩

end Crust
